/-
Verification of the MySensors-style message model (`Message.h`).

The header file declares six `enum : unsigned char` code tables, a
`Message` header struct of seven one-byte fields, and a `MessageHelper`
class owning one `Message` plus a fixed `char payload[144]` buffer.
The enum tables and the data layout are transcribed below from the
source.  The header declares the `MessageHelper` member functions but
their bodies are not part of the repository sources; those operations
are modelled from the specification's contract (each such definition
carries a doc comment saying so).

Bytes are modelled as `Nat` (each C++ field is an `unsigned char`;
no arithmetic is performed on them, so no wrap-around can occur).
-/
import Mathlib

/-! ## Enum code tables, transcribed from `Message.h` -/

-- sensor_command (the command field / message type)
def C_PRESENTATION : Nat := 0
def C_SET : Nat := 1
def C_REQ : Nat := 2
def C_INTERNAL : Nat := 3
def C_STREAM : Nat := 4

/-- All named codes of `sensor_command`, in source order. -/
def sensor_command.codes : List Nat :=
  [C_PRESENTATION, C_SET, C_REQ, C_INTERNAL, C_STREAM]

-- sensor_type (type of sensor, used when presenting sensors)
def S_DOOR : Nat := 0
def S_MOTION : Nat := 1
def S_SMOKE : Nat := 2
def S_BINARY : Nat := 3
/-- Deprecated alias: same code as `S_BINARY` in the source table. -/
def S_LIGHT : Nat := 3
def S_DIMMER : Nat := 4
def S_COVER : Nat := 5
def S_TEMP : Nat := 6
def S_HUM : Nat := 7
def S_BARO : Nat := 8
def S_WIND : Nat := 9
def S_RAIN : Nat := 10
def S_UV : Nat := 11
def S_WEIGHT : Nat := 12
def S_POWER : Nat := 13
def S_HEATER : Nat := 14
def S_DISTANCE : Nat := 15
def S_LIGHT_LEVEL : Nat := 16
def S_ARDUINO_NODE : Nat := 17
def S_ARDUINO_REPEATER_NODE : Nat := 18
def S_LOCK : Nat := 19
def S_IR : Nat := 20
def S_WATER : Nat := 21
def S_AIR_QUALITY : Nat := 22
def S_CUSTOM : Nat := 23
def S_DUST : Nat := 24
def S_SCENE_CONTROLLER : Nat := 25
def S_RGB_LIGHT : Nat := 26
def S_RGBW_LIGHT : Nat := 27
def S_COLOR_SENSOR : Nat := 28
def S_HVAC : Nat := 29
def S_MULTIMETER : Nat := 30
def S_SPRINKLER : Nat := 31
def S_WATER_LEAK : Nat := 32
def S_SOUND : Nat := 33
def S_VIBRATION : Nat := 34
def S_MOISTURE : Nat := 35
def S_INFO : Nat := 36
def S_GAS : Nat := 37
def S_GPS : Nat := 38
def S_WATER_QUALITY : Nat := 39

/-- All named codes of `sensor_type`, in source order (the deprecated
alias `S_LIGHT` appears next to `S_BINARY` as in the source). -/
def sensor_type.codes : List Nat :=
  [S_DOOR, S_MOTION, S_SMOKE, S_BINARY, S_LIGHT, S_DIMMER, S_COVER, S_TEMP,
   S_HUM, S_BARO, S_WIND, S_RAIN, S_UV, S_WEIGHT, S_POWER, S_HEATER,
   S_DISTANCE, S_LIGHT_LEVEL, S_ARDUINO_NODE, S_ARDUINO_REPEATER_NODE,
   S_LOCK, S_IR, S_WATER, S_AIR_QUALITY, S_CUSTOM, S_DUST,
   S_SCENE_CONTROLLER, S_RGB_LIGHT, S_RGBW_LIGHT, S_COLOR_SENSOR, S_HVAC,
   S_MULTIMETER, S_SPRINKLER, S_WATER_LEAK, S_SOUND, S_VIBRATION,
   S_MOISTURE, S_INFO, S_GAS, S_GPS, S_WATER_QUALITY]

-- sensor_information_type (type of sensor data, for set/req/ack messages)
def V_TEMP : Nat := 0
def V_HUM : Nat := 1
def V_STATUS : Nat := 2
/-- Deprecated alias: same code as `V_STATUS` in the source table. -/
def V_LIGHT : Nat := 2
def V_PERCENTAGE : Nat := 3
/-- Deprecated alias: same code as `V_PERCENTAGE` in the source table. -/
def V_DIMMER : Nat := 3
def V_PRESSURE : Nat := 4
def V_FORECAST : Nat := 5
def V_RAIN : Nat := 6
def V_RAINRATE : Nat := 7
def V_WIND : Nat := 8
def V_GUST : Nat := 9
def V_DIRECTION : Nat := 10
def V_UV : Nat := 11
def V_WEIGHT : Nat := 12
def V_DISTANCE : Nat := 13
def V_IMPEDANCE : Nat := 14
def V_ARMED : Nat := 15
def V_TRIPPED : Nat := 16
def V_WATT : Nat := 17
def V_KWH : Nat := 18
def V_SCENE_ON : Nat := 19
def V_SCENE_OFF : Nat := 20
def V_HVAC_FLOW_STATE : Nat := 21
/-- Deprecated alias: same code as `V_HVAC_FLOW_STATE` in the source table. -/
def V_HEATER : Nat := 21
def V_HVAC_SPEED : Nat := 22
def V_LIGHT_LEVEL : Nat := 23
def V_VAR1 : Nat := 24
def V_VAR2 : Nat := 25
def V_VAR3 : Nat := 26
def V_VAR4 : Nat := 27
def V_VAR5 : Nat := 28
def V_UP : Nat := 29
def V_DOWN : Nat := 30
def V_STOP : Nat := 31
def V_IR_SEND : Nat := 32
def V_IR_RECEIVE : Nat := 33
def V_FLOW : Nat := 34
def V_VOLUME : Nat := 35
def V_LOCK_STATUS : Nat := 36
def V_LEVEL : Nat := 37
def V_VOLTAGE : Nat := 38
def V_CURRENT : Nat := 39
def V_RGB : Nat := 40
def V_RGBW : Nat := 41
def V_ID : Nat := 42
def V_UNIT_PREF : Nat := 43  -- source name V UNIT PREFIX, code 43
def V_HVAC_SETPOINT_COOL : Nat := 44
def V_HVAC_SETPOINT_HEAT : Nat := 45
def V_HVAC_FLOW_MODE : Nat := 46
def V_TEXT : Nat := 47
def V_CUSTOM : Nat := 48
def V_POSITION : Nat := 49
def V_IR_RECORD : Nat := 50
def V_PH : Nat := 51
def V_ORP : Nat := 52
def V_EC : Nat := 53
def V_VAR : Nat := 54
def V_VA : Nat := 55
def V_POWER_FACTOR : Nat := 56

/-- All named codes of `sensor_information_type`, in source order
(deprecated aliases `V_LIGHT`, `V_DIMMER`, `V_HEATER` appear next to
their replacements as in the source). -/
def sensor_information_type.codes : List Nat :=
  [V_TEMP, V_HUM, V_STATUS, V_LIGHT, V_PERCENTAGE, V_DIMMER, V_PRESSURE,
   V_FORECAST, V_RAIN, V_RAINRATE, V_WIND, V_GUST, V_DIRECTION, V_UV,
   V_WEIGHT, V_DISTANCE, V_IMPEDANCE, V_ARMED, V_TRIPPED, V_WATT, V_KWH,
   V_SCENE_ON, V_SCENE_OFF, V_HVAC_FLOW_STATE, V_HEATER, V_HVAC_SPEED,
   V_LIGHT_LEVEL, V_VAR1, V_VAR2, V_VAR3, V_VAR4, V_VAR5, V_UP, V_DOWN,
   V_STOP, V_IR_SEND, V_IR_RECEIVE, V_FLOW, V_VOLUME, V_LOCK_STATUS,
   V_LEVEL, V_VOLTAGE, V_CURRENT, V_RGB, V_RGBW, V_ID, V_UNIT_PREF,
   V_HVAC_SETPOINT_COOL, V_HVAC_SETPOINT_HEAT, V_HVAC_FLOW_MODE, V_TEXT,
   V_CUSTOM, V_POSITION, V_IR_RECORD, V_PH, V_ORP, V_EC, V_VAR, V_VA,
   V_POWER_FACTOR]

-- system_message_type (type of internal messages)
def I_BATTERY_LEVEL : Nat := 0
def I_TIME : Nat := 1
def I_VERSION : Nat := 2
def I_ID_REQUEST : Nat := 3
def I_ID_RESPONSE : Nat := 4
def I_INCLUSION_MODE : Nat := 5
def I_CONFIG : Nat := 6
def I_FIND_PARENT : Nat := 7
def I_FIND_PARENT_RESPONSE : Nat := 8
def I_LOG_MESSAGE : Nat := 9
def I_CHILDREN : Nat := 10
def I_SKETCH_NAME : Nat := 11
def I_SKETCH_VERSION : Nat := 12
def I_REBOOT : Nat := 13
def I_GATEWAY_READY : Nat := 14
def I_SIGNING_PRESENTATION : Nat := 15
def I_NONCE_REQUEST : Nat := 16
def I_NONCE_RESPONSE : Nat := 17
def I_HEARTBEAT : Nat := 18
def I_PRESENTATION : Nat := 19
def I_DISCOVER : Nat := 20
def I_DISCOVER_RESPONSE : Nat := 21
def I_HEARTBEAT_RESPONSE : Nat := 22
def I_LOCKED : Nat := 23
def I_PING : Nat := 24
def I_PONG : Nat := 25
def I_REGISTRATION_REQUEST : Nat := 26
def I_REGISTRATION_RESPONSE : Nat := 27
def I_DEBUG : Nat := 28
def I_SPECIAL_FUNCTIONSLIST : Nat := 29

/-- All named codes of `system_message_type`, in source order. -/
def system_message_type.codes : List Nat :=
  [I_BATTERY_LEVEL, I_TIME, I_VERSION, I_ID_REQUEST, I_ID_RESPONSE,
   I_INCLUSION_MODE, I_CONFIG, I_FIND_PARENT, I_FIND_PARENT_RESPONSE,
   I_LOG_MESSAGE, I_CHILDREN, I_SKETCH_NAME, I_SKETCH_VERSION, I_REBOOT,
   I_GATEWAY_READY, I_SIGNING_PRESENTATION, I_NONCE_REQUEST,
   I_NONCE_RESPONSE, I_HEARTBEAT, I_PRESENTATION, I_DISCOVER,
   I_DISCOVER_RESPONSE, I_HEARTBEAT_RESPONSE, I_LOCKED, I_PING, I_PONG,
   I_REGISTRATION_REQUEST, I_REGISTRATION_RESPONSE, I_DEBUG,
   I_SPECIAL_FUNCTIONSLIST]

-- mstream_type (type of data stream, for streamed messages)
def ST_FIRMWARE_CONFIG_REQUEST : Nat := 0
def ST_FIRMWARE_CONFIG_RESPONSE : Nat := 1
def ST_FIRMWARE_REQUEST : Nat := 2
def ST_FIRMWARE_RESPONSE : Nat := 3
def ST_SOUND : Nat := 4
def ST_IMAGE : Nat := 5
def ST_FUNCTIONSLIST : Nat := 6

/-- All named codes of `mstream_type`, in source order. -/
def mstream_type.codes : List Nat :=
  [ST_FIRMWARE_CONFIG_REQUEST, ST_FIRMWARE_CONFIG_RESPONSE,
   ST_FIRMWARE_REQUEST, ST_FIRMWARE_RESPONSE, ST_SOUND, ST_IMAGE,
   ST_FUNCTIONSLIST]

-- payload_type (type of payload)
def P_STRING : Nat := 0
def P_BYTE : Nat := 1
def P_INT16 : Nat := 2
def P_UINT16 : Nat := 3
def P_LONG32 : Nat := 4
def P_ULONG32 : Nat := 5
def P_CUSTOM : Nat := 6
def P_FLOAT32 : Nat := 7
def P_HEARTBEAT : Nat := 8

/-- All named codes of `payload_type`, in source order. -/
def payload_type.codes : List Nat :=
  [P_STRING, P_BYTE, P_INT16, P_UINT16, P_LONG32, P_ULONG32, P_CUSTOM,
   P_FLOAT32, P_HEARTBEAT]

/-- Modelled from the spec: the decode boundary for an enum code table
(the C++ source performs an unchecked cast of the byte to the enum; the
spec's round-trip property reads "decoding then re-encoding yields c"
over the closed code set).  Decoding accepts exactly the codes in the
table and yields the numeric discriminant; re-encoding an enum value is
the discriminant itself. -/
def decodeCode (codes : List Nat) (c : Nat) : Option Nat :=
  if c ∈ codes then some c else none

def sensor_command.ofByte : Nat → Option Nat := decodeCode sensor_command.codes
def sensor_type.ofByte : Nat → Option Nat := decodeCode sensor_type.codes
def sensor_information_type.ofByte : Nat → Option Nat :=
  decodeCode sensor_information_type.codes
def system_message_type.ofByte : Nat → Option Nat :=
  decodeCode system_message_type.codes
def mstream_type.ofByte : Nat → Option Nat := decodeCode mstream_type.codes
def payload_type.ofByte : Nat → Option Nat := decodeCode payload_type.codes

/-! ## The Message header and the MessageHelper envelope -/

/-- The `Message` header struct, transcribed from the source: seven
fields, each one byte wide in the source (`unsigned char` or an
`enum : unsigned char`), in the source's declaration order. -/
structure Message where
  sensor_id : Nat
  sensorCommand : Nat
  sensorType : Nat
  informationType : Nat
  messageType : Nat
  datatype : Nat
  payloadsize : Nat
deriving Repr, DecidableEq

/-- Capacity of the `MessageHelper` payload buffer: the source declares
`char payload[144]`. -/
def payloadCapacity : Nat := 144

/-- Maximum accepted payload size: the source annotates `payloadsize`
with "Max number 137" and the spec fixes MAX_PAYLOAD = 137. -/
def MAX_PAYLOAD : Nat := 137

/-- The `MessageHelper` envelope, transcribed from the source: one
`Message` header plus a fixed-capacity payload byte buffer
(`char payload[144]`, modelled as a `List Nat` kept at length 144). -/
structure MessageHelper where
  internalMessage_ : Message
  payload : List Nat
deriving Repr, DecidableEq

/-- Well-formedness carried by every reachable `MessageHelper`: the
payload buffer has exactly its declared capacity of 144 cells. -/
def MessageHelper.wf (m : MessageHelper) : Prop :=
  m.payload.length = payloadCapacity

instance (m : MessageHelper) : Decidable m.wf := by
  unfold MessageHelper.wf; infer_instance

/-- Error kinds of the spec's error-handling design; only
`PayloadTooLarge` is raised by the operations modelled here. -/
inductive MsgError where
  | PayloadTooLarge
  | InvalidField
  | PayloadTypeMismatch
deriving Repr, DecidableEq

/-- Modelled from the spec: the `MessageHelper()` constructor (body
absent from the sources; the header only declares it).  Spec:
"constructed with a zeroed/default header (command =
Presentation-equivalent default, payloadType = String, payloadSize = 0)
and zero-filled payload". -/
def MessageHelper.init : MessageHelper :=
  { internalMessage_ :=
      { sensor_id := 0, sensorCommand := C_PRESENTATION, sensorType := 0,
        informationType := 0, messageType := 0, datatype := P_STRING,
        payloadsize := 0 },
    payload := List.replicate payloadCapacity 0 }

/-- Modelled from the spec: `setSensorID(id)` "always succeeds; stores
id in header" (body absent from the sources). -/
def MessageHelper.setSensorID (m : MessageHelper) (id : Nat) : MessageHelper :=
  { m with internalMessage_ := { m.internalMessage_ with sensor_id := id } }

/-- Modelled from the spec: `setSensorType(t)` stores the given enum
value into the header's sensor-type field; no cross-field validation
(body absent from the sources). -/
def MessageHelper.setSensorType (m : MessageHelper) (t : Nat) : MessageHelper :=
  { m with internalMessage_ := { m.internalMessage_ with sensorType := t } }

/-- Modelled from the spec: `setSensorInformationType(t)` stores the
given enum value into the header's information-type field; no
cross-field validation (body absent from the sources). -/
def MessageHelper.setSensorInformationType (m : MessageHelper) (t : Nat) :
    MessageHelper :=
  { m with internalMessage_ := { m.internalMessage_ with informationType := t } }

/-- Modelled from the spec: `setCommand(c)` stores the given enum value
into the header's command field (body absent from the sources). -/
def MessageHelper.setCommand (m : MessageHelper) (c : Nat) : MessageHelper :=
  { m with internalMessage_ := { m.internalMessage_ with sensorCommand := c } }

/-- Modelled from the spec: `setSystemMessageType(t)` stores the given
enum value into the header's internal-message-type field (body absent
from the sources). -/
def MessageHelper.setSystemMessageType (m : MessageHelper) (t : Nat) :
    MessageHelper :=
  { m with internalMessage_ := { m.internalMessage_ with messageType := t } }

/-- Modelled from the spec: `setPayloadType(t)` stores the given enum
value into the header's payload-type field (body absent from the
sources). -/
def MessageHelper.setPayloadType (m : MessageHelper) (t : Nat) : MessageHelper :=
  { m with internalMessage_ := { m.internalMessage_ with datatype := t } }

/-- Modelled from the spec: `setPayloadSize(size)` "fails with
`PayloadTooLarge` if `size` exceeds the buffer capacity (MAX_PAYLOAD);
otherwise stores size", rejected before mutating state (body absent
from the sources). -/
def MessageHelper.setPayloadSize (m : MessageHelper) (size : Nat) :
    Except MsgError MessageHelper :=
  if size > MAX_PAYLOAD then .error .PayloadTooLarge
  else .ok { m with internalMessage_ :=
               { m.internalMessage_ with payloadsize := size } }

/-- A caller that keeps using its envelope after a failed
`setPayloadSize` call still holds the unmodified envelope: the
fallible call either returns the updated envelope or leaves the
original in place. -/
def MessageHelper.trySetPayloadSize (m : MessageHelper) (size : Nat) :
    MessageHelper :=
  match m.setPayloadSize size with
  | .ok m' => m'
  | .error _ => m

/-- Modelled from the spec: the pure accessors (bodies absent from the
sources); each "returns the stored value; always succeeds". -/
def MessageHelper.getSensorID (m : MessageHelper) : Nat :=
  m.internalMessage_.sensor_id

def MessageHelper.getSensorType (m : MessageHelper) : Nat :=
  m.internalMessage_.sensorType

def MessageHelper.getSensorInformationType (m : MessageHelper) : Nat :=
  m.internalMessage_.informationType

def MessageHelper.getCommand (m : MessageHelper) : Nat :=
  m.internalMessage_.sensorCommand

def MessageHelper.getSystemMessageType (m : MessageHelper) : Nat :=
  m.internalMessage_.messageType

def MessageHelper.getPayloadType (m : MessageHelper) : Nat :=
  m.internalMessage_.datatype

def MessageHelper.getPayloadSize (m : MessageHelper) : Nat :=
  m.internalMessage_.payloadsize

/-- Modelled from the spec: `getPayload()` "returns a read-only view of
exactly the first `payloadSize` bytes of the internal buffer" (body
absent from the sources). -/
def MessageHelper.getPayload (m : MessageHelper) : List Nat :=
  m.payload.take m.internalMessage_.payloadsize

/-- A single byte store into the public `payload` buffer (the source
exposes `char payload[144]` as a public member, so callers write
payload bytes by direct array stores). -/
def MessageHelper.writeByte (m : MessageHelper) (i : Nat) (v : Nat) :
    MessageHelper :=
  { m with payload := m.payload.set i v }

/-- A sequence of byte stores at consecutive indices starting at `i`
(how a caller fills the public payload buffer). -/
def MessageHelper.writeBytes : MessageHelper → Nat → List Nat → MessageHelper
  | m, _, [] => m
  | m, i, b :: bs => (m.writeByte i b).writeBytes (i + 1) bs

/-! ## Rendering (`toString`) and serialization -/

/-- Byte `i` of the payload buffer as the C++ pointer casts read it
(reads beyond the list default to 0; unreachable under `wf`). -/
def MessageHelper.bufByte (m : MessageHelper) (i : Nat) : Nat :=
  m.payload.getD i 0

/-- Decimal string of an integer (sign then digits). -/
def intRepr (v : Int) : String :=
  if v < 0 then "-" ++ Nat.repr v.natAbs else Nat.repr v.natAbs

/-- Two's-complement reading of an unsigned `w`-bit value. -/
def toSigned (w : Nat) (v : Nat) : Int :=
  if v < 2 ^ (w - 1) then (v : Int) else (v : Int) - 2 ^ w

/-- Strip trailing `'0'` characters (used to print exact binary
fractions without spurious zeros). -/
def trimZeros (s : List Char) : List Char :=
  (s.reverse.dropWhile (fun c => c = '0')).reverse

/-- Decimal rendering of the exact dyadic value `sign * num * 2 ^ e`:
when `e < 0` the value times `10 ^ (-e)` is the integer `num * 5 ^ (-e)`,
printed with a decimal point `-e` digits from the right and trailing
zeros trimmed. -/
def formatDyadic (sign : Bool) (num : Nat) (e : Int) : String :=
  let core :=
    if 0 ≤ e then Nat.repr (num * 2 ^ e.toNat)
    else
      let k := (-e).toNat
      let s := Nat.repr (num * 5 ^ k)
      let s := if s.length < k + 1 then
                 String.mk (List.replicate (k + 1 - s.length) '0') ++ s
               else s
      let ip := String.mk (s.data.take (s.data.length - k))
      let fp := trimZeros (s.data.drop (s.data.length - k))
      if fp.isEmpty then ip else ip ++ "." ++ String.mk fp
  if sign then "-" ++ core else core

/-- Exact IEEE-754 binary32 decoding of the little-endian bytes
`b0..b3`: `none` for infinities and NaNs, otherwise the sign, the
integral mantissa and the binary exponent of the exact value
`± mant * 2 ^ e`. -/
def decodeFloat32 (b0 b1 b2 b3 : Nat) : Option (Bool × Nat × Int) :=
  let bits := b0 + 256 * b1 + 65536 * b2 + 16777216 * b3
  let sign := bits / 2 ^ 31 % 2 = 1
  let ex : Nat := bits / 2 ^ 23 % 256
  let frac := bits % 2 ^ 23
  if ex = 255 then none
  else if ex = 0 then some (sign, frac, (-149 : Int))
  else some (sign, 2 ^ 23 + frac, (ex : Int) - 150)

/-- Hex digit characters. -/
def hexDigit (n : Nat) : Char :=
  if n < 10 then Char.ofNat (48 + n) else Char.ofNat (87 + n % 6)

/-- Two-digit hex rendering of one byte (used for the custom/binary
payload dump). -/
def hexByte (b : Nat) : String :=
  String.mk [hexDigit (b / 16 % 16), hexDigit (b % 16)]

/-- Modelled from the spec: the payload part of the rendering.  "for
`payloadType = String`, also includes the payload bytes interpreted as
text (truncated/terminated at `payloadSize`); for numeric payload
types, the rendering decodes the bytes per the declared type ...
(byte → unsigned decimal; int16/uint16 → decimal; int32/uint32 →
decimal; float32 → decoded IEEE-754 value; custom/binary → hex dump;
empty → omitted)".  Multi-byte values are read little-endian as on the
AVR target. -/
def MessageHelper.renderPayload (m : MessageHelper) : String :=
  let u16 := m.bufByte 0 + 256 * m.bufByte 1
  let u32 := m.bufByte 0 + 256 * m.bufByte 1 + 65536 * m.bufByte 2 +
             16777216 * m.bufByte 3
  if m.internalMessage_.datatype = P_STRING then
    String.mk (m.getPayload.map Char.ofNat)
  else if m.internalMessage_.datatype = P_BYTE then
    Nat.repr (m.bufByte 0)
  else if m.internalMessage_.datatype = P_INT16 then
    intRepr (toSigned 16 u16)
  else if m.internalMessage_.datatype = P_UINT16 then
    Nat.repr u16
  else if m.internalMessage_.datatype = P_LONG32 then
    intRepr (toSigned 32 u32)
  else if m.internalMessage_.datatype = P_ULONG32 then
    Nat.repr u32
  else if m.internalMessage_.datatype = P_CUSTOM then
    String.join (m.getPayload.map hexByte)
  else if m.internalMessage_.datatype = P_FLOAT32 then
    match decodeFloat32 (m.bufByte 0) (m.bufByte 1) (m.bufByte 2)
        (m.bufByte 3) with
    | some (sg, num, e) => formatDyadic sg num e
    | none => "nan"
  else ""

/-- Modelled from the spec: `toString()` (the rendering operation; body
absent from the sources).  "produces a newly allocated human-readable
string describing the full header field set", plus the payload rendered
per the declared payload type. -/
def MessageHelper.toString (m : MessageHelper) : String :=
  "sensorId: " ++ Nat.repr m.internalMessage_.sensor_id ++
  ", command: " ++ Nat.repr m.internalMessage_.sensorCommand ++
  ", sensorType: " ++ Nat.repr m.internalMessage_.sensorType ++
  ", informationType: " ++ Nat.repr m.internalMessage_.informationType ++
  ", internalType: " ++ Nat.repr m.internalMessage_.messageType ++
  ", payloadType: " ++ Nat.repr m.internalMessage_.datatype ++
  ", payloadSize: " ++ Nat.repr m.internalMessage_.payloadsize ++
  ", payload: " ++ m.renderPayload

/-- The C++ call `m.toString()` returns a fresh string and hands the
caller back the same envelope object: modelled as the pair of the
rendered string and the (unchanged) envelope state. -/
def MessageHelper.toStringCall (m : MessageHelper) : String × MessageHelper :=
  (m.toString, m)

/-- `pat` occurs as a contiguous substring of `s` (stated on the
underlying character lists). -/
def strContains (s pat : String) : Prop :=
  pat.data <:+: s.data

/-- Modelled from the spec: the wire frame.  "A serialized message
frame is exactly `HEADER_BYTES + payloadSize` bytes": the seven header
bytes in the struct's declaration order (which the spec fixes as the
wire byte order), then the first `payloadSize` payload bytes. -/
def MessageHelper.serialize (m : MessageHelper) : List Nat :=
  [m.internalMessage_.sensor_id, m.internalMessage_.sensorCommand,
   m.internalMessage_.sensorType, m.internalMessage_.informationType,
   m.internalMessage_.messageType, m.internalMessage_.datatype,
   m.internalMessage_.payloadsize] ++
  m.payload.take m.internalMessage_.payloadsize

/-- All stored values are byte-sized: every header field and every
payload buffer cell is below 256 (the source declares them all as
`unsigned char` / `char`). -/
def MessageHelper.wfBytes (m : MessageHelper) : Prop :=
  m.internalMessage_.sensor_id < 256 ∧ m.internalMessage_.sensorCommand < 256 ∧
  m.internalMessage_.sensorType < 256 ∧
  m.internalMessage_.informationType < 256 ∧
  m.internalMessage_.messageType < 256 ∧ m.internalMessage_.datatype < 256 ∧
  m.internalMessage_.payloadsize < 256 ∧ ∀ b ∈ m.payload, b < 256

/-! ## Helper lemmas -/

theorem MessageHelper.writeBytes_header (bs : List Nat) :
    ∀ (m : MessageHelper) (i : Nat),
      (m.writeBytes i bs).internalMessage_ = m.internalMessage_ := by
  induction bs with
  | nil => intro m i; rfl
  | cons b bs ih => intro m i; exact ih (m.writeByte i b) (i + 1)

theorem MessageHelper.writeBytes_payload (bs : List Nat) :
    ∀ (m : MessageHelper) (i : Nat), i + bs.length ≤ m.payload.length →
      (m.writeBytes i bs).payload =
        m.payload.take i ++ bs ++ m.payload.drop (i + bs.length) := by
  induction bs with
  | nil =>
    intro m i _
    simp only [MessageHelper.writeBytes, List.append_nil, Nat.add_zero]
    exact (List.take_append_drop i m.payload).symm
  | cons b bs ih =>
    intro m i h
    have hlen : i < m.payload.length := by
      simp only [List.length_cons] at h; omega
    have h' : (i + 1) + bs.length ≤ (m.writeByte i b).payload.length := by
      simp only [MessageHelper.writeByte, List.length_set,
        List.length_cons] at h ⊢
      omega
    have step : m.writeBytes i (b :: bs) = (m.writeByte i b).writeBytes (i + 1) bs := rfl
    rw [step, ih (m.writeByte i b) (i + 1) h']
    have hpay : (m.writeByte i b).payload = m.payload.set i b := rfl
    rw [hpay, List.set_eq_take_cons_drop b hlen]
    have hlt : (m.payload.take i).length = i := by
      rw [List.length_take]; omega
    have htake : (m.payload.take i ++ b :: m.payload.drop (i + 1)).take (i + 1) =
        m.payload.take i ++ [b] := by
      rw [List.take_append_eq_append_take, hlt, List.take_take]
      have h1 : (i + 1) ⊓ i = i := by omega
      have h2 : i + 1 - i = 1 := by omega
      rw [h1, h2]
      rfl
    have hdrop : (m.payload.take i ++ b :: m.payload.drop (i + 1)).drop
        (i + 1 + bs.length) = m.payload.drop (i + (b :: bs).length) := by
      rw [List.drop_append_eq_append_drop, hlt]
      have h1 : (m.payload.take i).drop (i + 1 + bs.length) = [] := by
        apply List.drop_eq_nil_of_le
        rw [hlt]; omega
      have h2 : i + 1 + bs.length - i = bs.length + 1 := by omega
      rw [h1, h2, List.nil_append]
      show (m.payload.drop (i + 1)).drop bs.length = _
      rw [List.drop_drop]
      congr 1
      simp only [List.length_cons]
      omega
    rw [htake, hdrop]
    simp only [List.append_assoc, List.singleton_append]

theorem MessageHelper.init_wf : MessageHelper.init.wf := by
  simp [MessageHelper.wf, MessageHelper.init]

/-! ## Claim theorems -/

/-- C4: the deprecated enum names alias exactly the numeric codes of
their replacements: `S_LIGHT = S_BINARY = 3`, `V_LIGHT = V_STATUS = 2`,
`V_DIMMER = V_PERCENTAGE = 3`, `V_HEATER = V_HVAC_FLOW_STATE = 21`; each
aliased pair is indistinguishable by numeric value, and the decode
boundary (which works by number only) cannot distinguish the two names. -/
theorem deprecated_aliases_exact :
    (S_LIGHT = S_BINARY ∧ S_BINARY = 3) ∧
    (V_LIGHT = V_STATUS ∧ V_STATUS = 2) ∧
    (V_DIMMER = V_PERCENTAGE ∧ V_PERCENTAGE = 3) ∧
    (V_HEATER = V_HVAC_FLOW_STATE ∧ V_HVAC_FLOW_STATE = 21) ∧
    sensor_type.ofByte S_LIGHT = sensor_type.ofByte S_BINARY ∧
    sensor_information_type.ofByte V_LIGHT =
      sensor_information_type.ofByte V_STATUS ∧
    sensor_information_type.ofByte V_DIMMER =
      sensor_information_type.ofByte V_PERCENTAGE ∧
    sensor_information_type.ofByte V_HEATER =
      sensor_information_type.ofByte V_HVAC_FLOW_STATE := by
  refine ⟨⟨rfl, rfl⟩, ⟨rfl, rfl⟩, ⟨rfl, rfl⟩, ⟨rfl, rfl⟩, rfl, rfl, rfl, rfl⟩

/-- C5: each of the six enumerations is a closed set of single-byte
codes numbered contiguously from 0 with the stated cardinality
(CommandKind 5, SensorType 40, InformationType 57, InternalMessageType
30, StreamType 7, PayloadType 9), and for every valid code c, decoding
c to the enum and re-encoding yields c. -/
theorem enum_code_tables_contiguous_roundtrip :
    (sensor_command.codes.dedup = List.range 5 ∧
     sensor_type.codes.dedup = List.range 40 ∧
     sensor_information_type.codes.dedup = List.range 57 ∧
     system_message_type.codes.dedup = List.range 30 ∧
     mstream_type.codes.dedup = List.range 7 ∧
     payload_type.codes.dedup = List.range 9) ∧
    ((∀ c ∈ sensor_command.codes, sensor_command.ofByte c = some c) ∧
     (∀ c ∈ sensor_type.codes, sensor_type.ofByte c = some c) ∧
     (∀ c ∈ sensor_information_type.codes,
        sensor_information_type.ofByte c = some c) ∧
     (∀ c ∈ system_message_type.codes, system_message_type.ofByte c = some c) ∧
     (∀ c ∈ mstream_type.codes, mstream_type.ofByte c = some c) ∧
     (∀ c ∈ payload_type.codes, payload_type.ofByte c = some c)) := by
  decide

/-- C6: a freshly constructed `MessageHelper` has the documented
default state: command = the Presentation default, payloadType =
`P_STRING`, payloadSize = 0, a zero-filled buffer, and an empty
`getPayload()` view. -/
theorem init_default_state :
    MessageHelper.init.getSensorID = 0 ∧
    MessageHelper.init.getCommand = C_PRESENTATION ∧
    MessageHelper.init.getSensorType = 0 ∧
    MessageHelper.init.getSensorInformationType = 0 ∧
    MessageHelper.init.getSystemMessageType = 0 ∧
    MessageHelper.init.getPayloadType = P_STRING ∧
    MessageHelper.init.getPayloadSize = 0 ∧
    MessageHelper.init.getPayload = [] ∧
    MessageHelper.init.payload = List.replicate payloadCapacity 0 := by
  refine ⟨rfl, rfl, rfl, rfl, rfl, rfl, rfl, rfl, rfl⟩

/-- C1: for every size in 0..=137, `setPayloadSize(size)` succeeds and
a subsequent `getPayloadSize()` returns size (the payload buffer is not
touched); for every size > 137, it fails with `PayloadTooLarge` and the
stored payloadSize — indeed the whole envelope — is left unchanged. -/
theorem setPayloadSize_bound (m : MessageHelper) (size : Nat) :
    (size ≤ MAX_PAYLOAD →
      ∃ m', m.setPayloadSize size = .ok m' ∧ m'.getPayloadSize = size ∧
        m'.payload = m.payload) ∧
    (size > MAX_PAYLOAD →
      m.setPayloadSize size = .error .PayloadTooLarge ∧
      (m.trySetPayloadSize size).getPayloadSize = m.getPayloadSize ∧
      m.trySetPayloadSize size = m) := by
  constructor
  · intro h
    have hc : ¬ size > MAX_PAYLOAD := by omega
    refine ⟨{ m with internalMessage_ :=
                { m.internalMessage_ with payloadsize := size } }, ?_, rfl, rfl⟩
    simp [MessageHelper.setPayloadSize, hc]
  · intro h
    have he : m.setPayloadSize size = .error .PayloadTooLarge := by
      simp [MessageHelper.setPayloadSize, h]
    refine ⟨he, ?_, ?_⟩
    · simp [MessageHelper.trySetPayloadSize, he]
    · simp [MessageHelper.trySetPayloadSize, he]

/-- Witness for C1 at concrete inputs: size 137 is accepted and read
back; size 138 is rejected with `PayloadTooLarge`, leaving the
envelope unchanged. -/
theorem setPayloadSize_bound_witness :
    (∃ m', MessageHelper.init.setPayloadSize 137 = .ok m' ∧
       m'.getPayloadSize = 137 ∧ m'.payload = MessageHelper.init.payload) ∧
    (MessageHelper.init.setPayloadSize 138 = .error .PayloadTooLarge ∧
     (MessageHelper.init.trySetPayloadSize 138).getPayloadSize =
       MessageHelper.init.getPayloadSize ∧
     MessageHelper.init.trySetPayloadSize 138 = MessageHelper.init) :=
  ⟨(setPayloadSize_bound MessageHelper.init 137).1 (by decide),
   (setPayloadSize_bound MessageHelper.init 138).2 (by decide)⟩

/-- C3: every header setter/getter pair round-trips: for every uint8
id, `setSensorID` then `getSensorID` returns id (always succeeding),
and each enum setter stores any value of the corresponding enum so
that the matching getter returns it, regardless of the values of the
other header fields; in particular `InformationType = V_TEMP` together
with `SensorType = S_DOOR` is stored unchecked (no cross-field
validation). -/
theorem setters_getters_roundtrip (m : MessageHelper) (id t v c s p : Nat)
    (hid : id < 256) (ht : t ∈ sensor_type.codes)
    (hv : v ∈ sensor_information_type.codes)
    (hc : c ∈ sensor_command.codes) (hs : s ∈ system_message_type.codes)
    (hp : p ∈ payload_type.codes) :
    (m.setSensorID id).getSensorID = id ∧
    (m.setSensorType t).getSensorType = t ∧
    (m.setSensorInformationType v).getSensorInformationType = v ∧
    (m.setCommand c).getCommand = c ∧
    (m.setSystemMessageType s).getSystemMessageType = s ∧
    (m.setPayloadType p).getPayloadType = p ∧
    ((m.setSensorType t).setSensorInformationType v).getSensorInformationType
      = v ∧
    ((m.setSensorType t).setSensorInformationType v).getSensorType = t :=
  ⟨rfl, rfl, rfl, rfl, rfl, rfl, rfl, rfl⟩

/-- Witness for C3 at concrete inputs, including the advisory-only
pairing `SensorType = S_DOOR` with `InformationType = V_TEMP`. -/
theorem setters_getters_roundtrip_witness :
    (MessageHelper.init.setSensorID 7).getSensorID = 7 ∧
    (MessageHelper.init.setSensorType S_DOOR).getSensorType = S_DOOR ∧
    (MessageHelper.init.setSensorInformationType V_TEMP).getSensorInformationType
      = V_TEMP ∧
    (MessageHelper.init.setCommand C_SET).getCommand = C_SET ∧
    (MessageHelper.init.setSystemMessageType I_HEARTBEAT).getSystemMessageType
      = I_HEARTBEAT ∧
    (MessageHelper.init.setPayloadType P_BYTE).getPayloadType = P_BYTE ∧
    ((MessageHelper.init.setSensorType S_DOOR).setSensorInformationType
        V_TEMP).getSensorInformationType = V_TEMP ∧
    ((MessageHelper.init.setSensorType S_DOOR).setSensorInformationType
        V_TEMP).getSensorType = S_DOOR :=
  setters_getters_roundtrip MessageHelper.init 7 S_DOOR V_TEMP C_SET
    I_HEARTBEAT P_BYTE (by decide) (by decide) (by decide) (by decide)
    (by decide) (by decide)

/-- C2: `getPayload()` is a read-only view of exactly the first
payloadSize buffer bytes: writing payload bytes and then reading via
`getPayload()` after a `setPayloadSize(size)` yields exactly the bytes
written truncated to size, and no `MessageHelper` ever exposes more
bytes than its stored payloadSize. -/
theorem getPayload_exact_view (m : MessageHelper) (bs : List Nat)
    (hwf : m.wf) (hlen : bs.length ≤ payloadCapacity) :
    (∀ size, size ≤ MAX_PAYLOAD → size ≤ bs.length →
      ∃ m', (m.writeBytes 0 bs).setPayloadSize size = .ok m' ∧
        m'.getPayload = bs.take size) ∧
    (∀ m' : MessageHelper, m'.getPayload.length ≤ m'.getPayloadSize) := by
  constructor
  · intro size hsz hcov
    have hlen' : m.payload.length = 144 := hwf
    have hble : 0 + bs.length ≤ m.payload.length := by
      unfold payloadCapacity at hlen; omega
    have hpay : (m.writeBytes 0 bs).payload =
        bs ++ m.payload.drop bs.length := by
      rw [MessageHelper.writeBytes_payload bs m 0 hble]
      simp
    have hc : ¬ size > MAX_PAYLOAD := by omega
    refine ⟨{ m.writeBytes 0 bs with internalMessage_ :=
        { (m.writeBytes 0 bs).internalMessage_ with payloadsize := size } },
      by simp [MessageHelper.setPayloadSize, hc], ?_⟩
    show ((m.writeBytes 0 bs).payload).take size = bs.take size
    rw [hpay, List.take_append_of_le_length hcov]
  · intro m'
    exact List.length_take_le _ _

/-- Witness for C2 at a concrete input: writing bytes 1,2,3 and setting
payloadSize 2 makes `getPayload()` return exactly the first two written
bytes; the fresh envelope exposes no more than its payloadSize. -/
theorem getPayload_exact_view_witness :
    (∃ m', (MessageHelper.init.writeBytes 0 [1, 2, 3]).setPayloadSize 2 =
        .ok m' ∧ m'.getPayload = [1, 2]) ∧
    MessageHelper.init.getPayload.length ≤ MessageHelper.init.getPayloadSize := by
  have h := getPayload_exact_view MessageHelper.init [1, 2, 3]
    MessageHelper.init_wf (by decide)
  refine ⟨?_, h.2 MessageHelper.init⟩
  obtain ⟨m', h1, h2⟩ := h.1 2 (by decide) (by decide)
  exact ⟨m', h1, h2.trans (by decide)⟩

/-- C8: the rendering operation is read-only with respect to the
envelope: the call returns the rendered string and leaves every header
field and every payload byte unchanged (all getters agree before and
after). -/
theorem toStringCall_readonly (m : MessageHelper) :
    m.toStringCall.1 = m.toString ∧
    m.toStringCall.2 = m ∧
    m.toStringCall.2.getSensorID = m.getSensorID ∧
    m.toStringCall.2.getCommand = m.getCommand ∧
    m.toStringCall.2.getSensorType = m.getSensorType ∧
    m.toStringCall.2.getSensorInformationType = m.getSensorInformationType ∧
    m.toStringCall.2.getSystemMessageType = m.getSystemMessageType ∧
    m.toStringCall.2.getPayloadType = m.getPayloadType ∧
    m.toStringCall.2.getPayloadSize = m.getPayloadSize ∧
    m.toStringCall.2.getPayload = m.getPayload ∧
    m.toStringCall.2.payload = m.payload :=
  ⟨rfl, rfl, rfl, rfl, rfl, rfl, rfl, rfl, rfl, rfl, rfl⟩

/-- C9: the header consists of exactly the seven one-byte fields in the
fixed wire order sensorId, command, sensorType, informationType,
internalType, payloadType, payloadSize, so a serialized frame is
exactly 7 + payloadSize bytes, never exceeding the 144-byte transport
capacity while payloadSize ≤ 137; and with byte-sized stored values
every frame byte fits in one byte. -/
theorem serialize_frame_layout (m : MessageHelper) (hwf : m.wf)
    (hsz : m.getPayloadSize ≤ MAX_PAYLOAD) :
    m.serialize.length = 7 + m.getPayloadSize ∧
    m.serialize.length ≤ 144 ∧
    m.serialize.take 7 = [m.getSensorID, m.getCommand, m.getSensorType,
      m.getSensorInformationType, m.getSystemMessageType, m.getPayloadType,
      m.getPayloadSize] ∧
    (m.wfBytes → ∀ b ∈ m.serialize, b < 256) := by
  have hlen : m.payload.length = 144 := hwf
  have hsz' : m.internalMessage_.payloadsize ≤ 137 := hsz
  have hlen_ser : m.serialize.length = 7 + m.internalMessage_.payloadsize := by
    simp only [MessageHelper.serialize, List.length_append, List.length_cons,
      List.length_nil, List.length_take, hlen]
    omega
  refine ⟨hlen_ser, by omega, ?_, ?_⟩
  · show List.take 7 (_ ++ _) = _
    rw [List.take_append_of_le_length (by simp)]
    rfl
  · intro hb b hmem
    obtain ⟨h1, h2, h3, h4, h5, h6, h7, h8⟩ := hb
    simp only [MessageHelper.serialize, List.mem_append, List.mem_cons,
      List.not_mem_nil, or_false] at hmem
    rcases hmem with (rfl | rfl | rfl | rfl | rfl | rfl | rfl) | hmem
    · exact h1
    · exact h2
    · exact h3
    · exact h4
    · exact h5
    · exact h6
    · exact h7
    · exact h8 b (List.take_subset _ _ hmem)

/-- Witness for C9 at the freshly constructed envelope: its frame is 7
bytes, within the 144-byte capacity, with the seven header fields in
order, and every frame byte below 256. -/
theorem serialize_frame_layout_witness :
    MessageHelper.init.serialize.length = 7 + MessageHelper.init.getPayloadSize ∧
    MessageHelper.init.serialize.length ≤ 144 ∧
    MessageHelper.init.serialize.take 7 = [MessageHelper.init.getSensorID,
      MessageHelper.init.getCommand, MessageHelper.init.getSensorType,
      MessageHelper.init.getSensorInformationType,
      MessageHelper.init.getSystemMessageType,
      MessageHelper.init.getPayloadType, MessageHelper.init.getPayloadSize] := by
  have h := serialize_frame_layout MessageHelper.init MessageHelper.init_wf
    (by decide)
  exact ⟨h.1, h.2.1, h.2.2.1⟩

/-- C10 (implicit): the payload buffer capacity is exactly 144 bytes,
strictly above the enforced maximum payloadSize of 137, so under the
invariant payloadSize ≤ 137 every read of the first payloadSize buffer
bytes stays in bounds; the 137 limit is stricter than the physical
bound, since sizes 138..144 would still fit the buffer yet are
rejected. -/
theorem payload_capacity_bounds (m : MessageHelper) (hwf : m.wf)
    (hinv : m.getPayloadSize ≤ MAX_PAYLOAD) :
    payloadCapacity = 144 ∧ MAX_PAYLOAD = 137 ∧ MAX_PAYLOAD < payloadCapacity ∧
    (∀ i < m.getPayloadSize, i < m.payload.length) ∧
    m.getPayload.length = m.getPayloadSize ∧
    (∀ sz, 138 ≤ sz → sz ≤ payloadCapacity →
      m.setPayloadSize sz = .error .PayloadTooLarge) := by
  have hlen : m.payload.length = 144 := hwf
  have hsz : m.internalMessage_.payloadsize ≤ 137 := hinv
  refine ⟨rfl, rfl, by decide, ?_, ?_, ?_⟩
  · intro i hi
    have hi' : i < m.internalMessage_.payloadsize := hi
    omega
  · have ht : (m.payload.take m.internalMessage_.payloadsize).length =
        m.internalMessage_.payloadsize := by
      rw [List.length_take]
      omega
    exact ht
  · intro sz hs1 _
    have hgt : sz > MAX_PAYLOAD := by unfold MAX_PAYLOAD; omega
    simp [MessageHelper.setPayloadSize, hgt]

/-- Witness for C10 at the freshly constructed envelope: the capacity
and limit constants, the full in-bounds view, and the rejection of
size 140 even though it fits the physical buffer. -/
theorem payload_capacity_bounds_witness :
    payloadCapacity = 144 ∧ MAX_PAYLOAD < payloadCapacity ∧
    MessageHelper.init.getPayload.length = MessageHelper.init.getPayloadSize ∧
    MessageHelper.init.setPayloadSize 140 = .error .PayloadTooLarge := by
  have h := payload_capacity_bounds MessageHelper.init MessageHelper.init_wf
    (by decide)
  exact ⟨h.1, h.2.2.1, h.2.2.2.2.1, h.2.2.2.2.2 140 (by decide) (by decide)⟩

/-- The "ON" example envelope: payloadType String, payloadSize 2, the
bytes of "ON" (79, 78) written at the front of the buffer, and a
garbage byte 90 (the character Z) left in the buffer just beyond
payloadSize. -/
def exampleON : MessageHelper :=
  ((((MessageHelper.init.setPayloadType P_STRING).trySetPayloadSize
      2).writeBytes 0 [79, 78]).writeByte 2 90)

/-- The Float32 example envelope: payloadType Float32, payloadSize 4,
and the four little-endian IEEE-754 binary32 bytes of the value 23.5
(0x41BC0000) written at the front of the buffer. -/
def exampleFloat : MessageHelper :=
  (((MessageHelper.init.setPayloadType P_FLOAT32).trySetPayloadSize
      4).writeBytes 0 [0, 0, 188, 65])

instance (s pat : String) : Decidable (strContains s pat) :=
  List.decidableInfix pat.data s.data

set_option maxRecDepth 40000 in
/-- C7: the rendering decodes the payload per the declared payloadType:
with payloadType String and the 2-byte payload "ON" the produced string
contains ON and none of the buffer bytes beyond payloadSize (the
garbage byte Z sitting at buffer index 2 never appears); with
payloadType Float32 and the 4-byte IEEE-754 encoding of 23.5 the
produced string contains 23.5 (the decoded exact value being
12320768 * 2 ^ (-19) = 23.5). -/
theorem toString_decodes_payload :
    strContains exampleON.toString "ON" ∧
    ¬ strContains exampleON.toString "Z" ∧
    exampleON.bufByte 2 = 90 ∧
    exampleON.getPayloadSize = 2 ∧
    strContains exampleFloat.toString "23.5" ∧
    decodeFloat32 0 0 188 65 = some (false, 12320768, -19) ∧
    12320768 * 2 = 47 * 2 ^ 19 := by
  decide

/-- Witness for C5 at concrete codes: the command table dedups to the
contiguous range 0..4 and the code of `P_FLOAT32` decodes and
re-encodes to itself. -/
theorem enum_code_tables_contiguous_roundtrip_witness :
    sensor_command.codes.dedup = List.range 5 ∧
    payload_type.ofByte P_FLOAT32 = some P_FLOAT32 := by
  have h := enum_code_tables_contiguous_roundtrip
  exact ⟨h.1.1, h.2.2.2.2.2.2 P_FLOAT32 (by decide)⟩
